import Mathlib

/-!
Shallow embedding of the `timeleft` web application core (src/app.js).

Modelling conventions:
* JavaScript numbers are modelled as `JsNum`: either a rational value or `NaN`
  (float rounding and infinities are not modelled; every numeric claim here is
  about exactly-representable values).
* A `Date` is identified with its millisecond time value (a rational); a state
  field holding `null` or a `Date` is an `Option ℚ`.
* JavaScript relational/arithmetic coercions are modelled explicitly:
  `null` coerces to `0` in comparisons and subtraction, `NaN` makes every
  comparison false and propagates through arithmetic.
* The single thrown-exception site reachable in `calculateEstimation`
  (`state.lastProgressUpdate.getTime()` on `null`) is modelled with `Except`;
  the surrounding `try/catch` maps any error to `none` (JS `null`).
* The mutable module-level `state` is modelled by explicit state passing:
  each event handler / mutator is a function `TaskState → ... → TaskState`.
  `new Date()` / `Date.now()` is passed in as an explicit `now : ℚ` argument.
  Purely cosmetic feedback calls (pulse/shake/toasts) have no state effect
  and are omitted.
-/

/-- A JavaScript number: a rational value or `NaN`.  (Infinities are not
modelled; no claim exercises them.) -/
inductive JsNum where
  | nan : JsNum
  | num : ℚ → JsNum
  deriving DecidableEq, Repr

namespace JsNum

/-- JS addition: `NaN` propagates. -/
def add : JsNum → JsNum → JsNum
  | num a, num b => num (a + b)
  | _, _ => nan

/-- JS subtraction: `NaN` propagates. -/
def sub : JsNum → JsNum → JsNum
  | num a, num b => num (a - b)
  | _, _ => nan

/-- JS multiplication: `NaN` propagates. -/
def mul : JsNum → JsNum → JsNum
  | num a, num b => num (a * b)
  | _, _ => nan

/-- JS division: `NaN` propagates.  Division by zero yields `Infinity`
(or `NaN`) in JS; we map it to `nan`, and no modelled code path reaches it
(the one division in the source is guarded by `completedSteps > 0`). -/
def div : JsNum → JsNum → JsNum
  | num a, num b => if b = 0 then nan else num (a / b)
  | _, _ => nan

/-- JS `<` on numbers: any comparison with `NaN` is false. -/
def ltb : JsNum → JsNum → Bool
  | num a, num b => decide (a < b)
  | _, _ => false

/-- JS `Math.max` on two numbers: `NaN` if either argument is `NaN`. -/
def jsMax : JsNum → JsNum → JsNum
  | num a, num b => num (max a b)
  | _, _ => nan

/-- JS `Math.min` on two numbers: `NaN` if either argument is `NaN`. -/
def jsMin : JsNum → JsNum → JsNum
  | num a, num b => num (min a b)
  | _, _ => nan

end JsNum

/-- The numeric coercion used when a `null`-or-`Date` field appears in a
relational comparison or a subtraction: `null` becomes `+0`, a `Date`
becomes its time value. -/
def dateNum (d : Option ℚ) : ℚ := d.getD 0

/-- `Date.prototype.getTime`: throws a `TypeError` when the receiver is
`null` (modelled as `Except.error`), otherwise yields the time value. -/
def getTime : Option ℚ → Except Unit ℚ
  | none => .error ()
  | some t => .ok t

/-- `APP_STATE.SETUP` ("configuring start + totalSteps"). -/
def APP_STATE_SETUP : String := "setup"

/-- `APP_STATE.RUNNING` ("tracking completed steps"). -/
def APP_STATE_RUNNING : String := "running"

/-- `STATE_VERSION` (source: `1.0`). -/
def STATE_VERSION : ℚ := 1

/-- The mutable application state of src/app.js. -/
structure TaskState where
  startDate : Option ℚ
  lastProgressUpdate : Option ℚ
  totalSteps : JsNum
  completedSteps : JsNum
  appState : String
  deriving DecidableEq, Repr

/-- The estimation record returned by `calculateEstimation`.
`elapsedDurationMs` is a plain number (a date difference); the other numeric
fields are built with JS arithmetic on the step counters, hence `JsNum`;
`estimatedEndDate` is the time value of `new Date(lpu.getTime() + remaining)`
(a `NaN` time value would be JS's Invalid Date). -/
structure Estimation where
  elapsedDurationMs : ℚ
  totalDurationMs : JsNum
  remainingSteps : JsNum
  remainingDurationMs : JsNum
  estimatedEndDate : JsNum
  deriving DecidableEq, Repr

/-- Body of `calculateEstimation` (src/app.js lines 98–121), i.e. the inside
of the `try`.  `Except.error` marks the one reachable throw site:
`state.lastProgressUpdate.getTime()` with a `null` receiver.  `.ok none`
is the explicit `return null` for an invalid state. -/
def calculateEstimationBody (state : TaskState) : Except Unit (Option Estimation) :=
  let isValidState :=
    JsNum.ltb (JsNum.num 0) state.totalSteps &&
    JsNum.ltb (JsNum.num 0) state.completedSteps &&
    JsNum.ltb state.completedSteps state.totalSteps &&
    decide (dateNum state.startDate < dateNum state.lastProgressUpdate)
  if !isValidState then
    .ok none
  else
    let elapsedDurationMs : ℚ := dateNum state.lastProgressUpdate - dateNum state.startDate
    let totalDurationMs :=
      JsNum.div (JsNum.mul state.totalSteps (JsNum.num elapsedDurationMs)) state.completedSteps
    let remainingSteps := JsNum.sub state.totalSteps state.completedSteps
    let remainingDurationMs := JsNum.sub totalDurationMs (JsNum.num elapsedDurationMs)
    match getTime state.lastProgressUpdate with
    | .error e => .error e
    | .ok t =>
        .ok (some {
          elapsedDurationMs := elapsedDurationMs
          totalDurationMs := totalDurationMs
          remainingSteps := remainingSteps
          remainingDurationMs := remainingDurationMs
          estimatedEndDate := JsNum.add (JsNum.num t) remainingDurationMs })

/-- `calculateEstimation` (src/app.js lines 97–125): the body wrapped in
`try { ... } catch { return null; }`. -/
def calculateEstimation (state : TaskState) : Option Estimation :=
  match calculateEstimationBody state with
  | .ok v => v
  | .error _ => none

example :
    calculateEstimation
      { startDate := some (-5), lastProgressUpdate := none,
        totalSteps := JsNum.num 2, completedSteps := JsNum.num 1,
        appState := APP_STATE_RUNNING } = none := by
  norm_num [calculateEstimation, calculateEstimationBody, JsNum.ltb, JsNum.div,
    JsNum.mul, JsNum.sub, JsNum.add, dateNum, getTime]

/-- `updateTotalSteps` (src/app.js lines 134–143): add the delta, then clamp
to be non-negative with `Math.max(·, 0)`.  The `btnElem` argument and the
pulse/shake feedback are cosmetic and omitted. -/
def updateTotalSteps (state : TaskState) (delta : JsNum) : TaskState :=
  { state with totalSteps := JsNum.jsMax (JsNum.add state.totalSteps delta) (JsNum.num 0) }

/-- `updateCompletedSteps` (src/app.js lines 153–164): add the delta, clamp
with `Math.max(·, 0)` then `Math.min(·, totalSteps)`, and stamp
`lastProgressUpdate = new Date()` (the current instant `now`). -/
def updateCompletedSteps (state : TaskState) (delta : JsNum) (now : ℚ) : TaskState :=
  { state with
    completedSteps :=
      JsNum.jsMin (JsNum.jsMax (JsNum.add state.completedSteps delta) (JsNum.num 0))
        state.totalSteps
    lastProgressUpdate := some now }

/-- The `totalStepsInput` "input" event handler (src/app.js lines 413–417):
assigns `Number(totalStepsInput.value)` to `state.totalSteps` directly,
with no clamping. -/
def totalStepsInputHandler (state : TaskState) (value : JsNum) : TaskState :=
  { state with totalSteps := value }

/-- The `completedStepsInput` "input" event handler (src/app.js lines
419–424): assigns `Number(completedStepsInput.value)` to
`state.completedSteps` directly, with no clamping, and stamps
`lastProgressUpdate = new Date()`. -/
def completedStepsInputHandler (state : TaskState) (value : JsNum) (now : ℚ) : TaskState :=
  { state with completedSteps := value, lastProgressUpdate := some now }

/-- The `startProcessButton` click handler (src/app.js lines 467–491),
i.e. `begin()`: reject when `totalSteps < 1`; set `startDate = now` when it
is unset; reject when `startDate` is in the future; otherwise switch to
RUNNING and stamp `lastProgressUpdate = now`.  Feedback calls are cosmetic
and omitted; a rejected click returns the state as the handler left it. -/
def startProcess (state : TaskState) (now : ℚ) : TaskState :=
  if JsNum.ltb state.totalSteps (JsNum.num 1) then
    state
  else
    let state1 :=
      if state.startDate.isNone then { state with startDate := some now } else state
    -- `state1.startDate` is necessarily a date here, so `.getTime()` cannot
    -- throw; `getD 0` is only a total-function reading of that access.
    if (state1.startDate.getD 0) > now then
      state1
    else
      { state1 with appState := APP_STATE_RUNNING, lastProgressUpdate := some now }

/-- The `resetProcessButton` click handler (src/app.js lines 493–501),
i.e. `reset()`: back to SETUP, both counters zeroed, `startDate` cleared.
`lastProgressUpdate` is not touched. -/
def resetProcess (state : TaskState) : TaskState :=
  { state with
    appState := APP_STATE_SETUP
    completedSteps := JsNum.num 0
    totalSteps := JsNum.num 0
    startDate := none }

/-- An ISO-8601 date-time string as produced by `Date.prototype.toISOString`.
Such strings are in bijection with the millisecond instants they denote, so
the string is modelled by its instant; `toISOString` and ISO parsing by
`new Date(string)` are modelled through this bijection (their JS contract). -/
structure ISODateString where
  instant : ℚ
  deriving DecidableEq, Repr

/-- `Date.prototype.toISOString`. -/
def toISOString (t : ℚ) : ISODateString := ⟨t⟩

/-- `new Date(isoString)` for an ISO string: recovers the instant. -/
def parseISODate (s : ISODateString) : ℚ := s.instant

/-- The `state` component of the persisted payload (src/app.js lines 20–26):
dates as ISO strings or `null`, counters and mode as-is. -/
structure SavedState where
  startDate : Option ISODateString
  lastProgressUpdate : Option ISODateString
  totalSteps : JsNum
  completedSteps : JsNum
  appState : String
  deriving DecidableEq, Repr

/-- The persisted payload: `{ version, state }` (src/app.js lines 18–27). -/
structure Payload where
  version : ℚ
  state : SavedState
  deriving DecidableEq, Repr

/-- The content of the `localStorage` slot under `STORAGE_KEY`: absent
(`getItem` returns `null`), present but not parseable as JSON
(`JSON.parse` throws), or a parsed payload. -/
inductive Slot where
  | absent : Slot
  | garbage : Slot
  | payload : Payload → Slot
  deriving DecidableEq, Repr

/-- `saveState` (src/app.js lines 17–30), parameterised by the version tag
it writes (the source always writes the constant `STATE_VERSION`):
serialises each date with `toISOString` when present (`null` otherwise) and
copies the counters and mode. -/
def saveStateV (version : ℚ) (state : TaskState) : Payload :=
  { version := version
    state :=
      { startDate := state.startDate.map toISOString
        lastProgressUpdate := state.lastProgressUpdate.map toISOString
        totalSteps := state.totalSteps
        completedSteps := state.completedSteps
        appState := state.appState } }

/-- `saveState` with the source's own version tag. -/
def saveState (state : TaskState) : Payload := saveStateV STATE_VERSION state

/-- `createDefaultState` (src/app.js lines 32–40). -/
def createDefaultState : TaskState :=
  { startDate := none
    lastProgressUpdate := none
    totalSteps := JsNum.num 0
    completedSteps := JsNum.num 0
    appState := APP_STATE_SETUP }

/-- `loadOrInitState` (src/app.js lines 49–71), parameterised by the version
tag it expects (the source compares against the constant `STATE_VERSION`):
a missing slot, a slot whose JSON does not parse (the `catch`), or a version
mismatch all yield `createDefaultState`; otherwise each date is re-parsed
with `new Date(iso)` when the stored string is non-null. -/
def loadOrInitStateV (version : ℚ) (slot : Slot) : TaskState :=
  match slot with
  | .absent => createDefaultState
  | .garbage => createDefaultState
  | .payload parsed =>
      if parsed.version ≠ version then
        createDefaultState
      else
        { startDate := parsed.state.startDate.map parseISODate
          lastProgressUpdate := parsed.state.lastProgressUpdate.map parseISODate
          totalSteps := parsed.state.totalSteps
          completedSteps := parsed.state.completedSteps
          appState := parsed.state.appState }

/-- `loadOrInitState` with the source's own version tag. -/
def loadOrInitState (slot : Slot) : TaskState := loadOrInitStateV STATE_VERSION slot

/-- `String(n).padStart(2, "0")` for the non-negative minute/second counts
produced by `formatDuration`. -/
def pad2 (n : ℤ) : String := if n < 10 then "0" ++ toString n else toString n

/-- `formatDuration` (src/app.js lines 177–189): a negative duration renders
as the placeholder `"⏱ —"`; otherwise `Math.floor` arithmetic splits the
milliseconds into hours, minutes and seconds. -/
def formatDuration (ms : ℚ) : String :=
  if ms < 0 then "⏱ —"
  else
    let totalSeconds : ℤ := ⌊ms / 1000⌋
    let seconds : ℤ := totalSeconds % 60
    let totalMinutes : ℤ := ⌊(totalSeconds : ℚ) / 60⌋
    let minutes : ℤ := totalMinutes % 60
    let hours : ℤ := ⌊(totalMinutes : ℚ) / 60⌋
    "⏱ " ++ toString hours ++ ":" ++ pad2 minutes ++ ":" ++ pad2 seconds

example : formatDuration 60000 = "⏱ 0:01:00" := by
  norm_num [formatDuration, pad2]
  rfl

example : formatDuration (-60000) = "⏱ —" := by
  norm_num [formatDuration]

example : formatDuration 3723000 = "⏱ 1:02:03" := by
  norm_num [formatDuration, pad2]
  rfl

/-- Evaluation of `calculateEstimation` on a state satisfying the source's
validity condition with numeric counters and both dates present.  Shared by
the functional-correctness results below. -/
theorem calculateEstimation_valid_eq
    (s : TaskState) (sd l t c : ℚ)
    (hsd : s.startDate = some sd) (hl : s.lastProgressUpdate = some l)
    (ht : s.totalSteps = JsNum.num t) (hc : s.completedSteps = JsNum.num c)
    (h0 : 0 < c) (hct : c < t) (hsl : sd < l) :
    calculateEstimation s =
      some { elapsedDurationMs := l - sd
             totalDurationMs := JsNum.num (t * (l - sd) / c)
             remainingSteps := JsNum.num (t - c)
             remainingDurationMs := JsNum.num (t * (l - sd) / c - (l - sd))
             estimatedEndDate := JsNum.num (l + (t * (l - sd) / c - (l - sd))) } := by
  have h0t : (0 : ℚ) < t := h0.trans hct
  simp only [calculateEstimation, calculateEstimationBody, hsd, hl, ht, hc,
    JsNum.ltb, dateNum, getTime, Option.getD_some, JsNum.mul, JsNum.div,
    JsNum.sub, JsNum.add, h0.ne', if_false, decide_eq_true_eq]
  rw [if_neg (by simp [h0t, h0, hct, hsl])]

/-- C1: the claim states that `estimate` yields a result **iff** `totalSteps
> 0`, `0 < completedSteps < totalSteps`, both dates are present and
`startDate < lastProgressUpdate`.  The code contradicts this (and its own
doc comment, which lists "missing dates" among the invalid states): the
validity test `state.startDate < state.lastProgressUpdate` coerces a `null`
`startDate` to `+0` (the epoch), so a state with `startDate` absent,
`lastProgressUpdate` a positive instant, `totalSteps = 2` and
`completedSteps = 1` produces an estimation record instead of `null`.
This theorem evaluates the code at that failing input. -/
theorem calculateEstimation_missingStartDate_returnsRecord :
    calculateEstimation
      { startDate := none, lastProgressUpdate := some 1000,
        totalSteps := JsNum.num 2, completedSteps := JsNum.num 1,
        appState := APP_STATE_RUNNING } =
    some { elapsedDurationMs := 1000, totalDurationMs := JsNum.num 2000,
           remainingSteps := JsNum.num 1, remainingDurationMs := JsNum.num 1000,
           estimatedEndDate := JsNum.num 2000 } := by
  norm_num [calculateEstimation, calculateEstimationBody, JsNum.ltb, JsNum.div,
    JsNum.mul, JsNum.sub, JsNum.add, dateNum, getTime]

/-- C2: for every state satisfying the validity precondition (numeric
counters with `0 < completedSteps < totalSteps`, both dates present with
`startDate < lastProgressUpdate`), `calculateEstimation` returns the record
with exactly `elapsed = lastProgressUpdate - startDate`,
`totalEstimated = totalSteps * elapsed / completedSteps`,
`remainingSteps = totalSteps - completedSteps`,
`remainingTime = totalEstimated - elapsed`, and
`estimatedEndDate = lastProgressUpdate + remainingTime`. -/
theorem calculateEstimation_valid_formulas
    (s : TaskState) (sd l t c : ℚ)
    (hsd : s.startDate = some sd) (hl : s.lastProgressUpdate = some l)
    (ht : s.totalSteps = JsNum.num t) (hc : s.completedSteps = JsNum.num c)
    (h0 : 0 < c) (hct : c < t) (hsl : sd < l) :
    calculateEstimation s =
      some { elapsedDurationMs := l - sd
             totalDurationMs := JsNum.num (t * (l - sd) / c)
             remainingSteps := JsNum.num (t - c)
             remainingDurationMs := JsNum.num (t * (l - sd) / c - (l - sd))
             estimatedEndDate := JsNum.num (l + (t * (l - sd) / c - (l - sd))) } :=
  calculateEstimation_valid_eq s sd l t c hsd hl ht hc h0 hct hsl

/-- C2 witness — the spec's own scenario: `totalSteps = 100`,
`completedSteps = 25`, `startDate = 0`, `lastProgressUpdate = 600000`
(T + 10 min) yields `elapsed = 10 min`, `totalEstimated = 40 min`,
`remainingTime = 30 min`, `estimatedEndDate = T + 40 min`. -/
theorem calculateEstimation_valid_formulas_witness :
    calculateEstimation
      { startDate := some 0, lastProgressUpdate := some 600000,
        totalSteps := JsNum.num 100, completedSteps := JsNum.num 25,
        appState := APP_STATE_RUNNING } =
    some { elapsedDurationMs := 600000, totalDurationMs := JsNum.num 2400000,
           remainingSteps := JsNum.num 75, remainingDurationMs := JsNum.num 1800000,
           estimatedEndDate := JsNum.num 2400000 } := by
  have h := calculateEstimation_valid_formulas
    { startDate := some 0, lastProgressUpdate := some 600000,
      totalSteps := JsNum.num 100, completedSteps := JsNum.num 25,
      appState := APP_STATE_RUNNING }
    0 600000 100 25 rfl rfl rfl rfl (by norm_num) (by norm_num) (by norm_num)
  rw [h]
  norm_num

/-- C10: `calculateEstimation` is total and exception-free: on every state
the `try`-body either evaluates without throwing, and the wrapped function
returns exactly its value (an estimation record or `null`), or it throws,
and the `catch` maps the failure to `null`. -/
theorem calculateEstimation_total (s : TaskState) :
    (calculateEstimation s = none ∨ ∃ r, calculateEstimation s = some r) ∧
    ((∃ v, calculateEstimationBody s = .ok v ∧ calculateEstimation s = v) ∨
     (∃ e, calculateEstimationBody s = .error e ∧ calculateEstimation s = none)) := by
  constructor
  · cases h : calculateEstimation s
    · exact Or.inl rfl
    · exact Or.inr ⟨_, rfl⟩
  · cases h : calculateEstimationBody s with
    | error e => exact Or.inr ⟨e, rfl, by simp [calculateEstimation, h]⟩
    | ok v => exact Or.inl ⟨v, rfl, by simp [calculateEstimation, h]⟩

/-- C3 counterexample: the claim says the invariants hold after *every*
mutation, including input-driven updates.  The `completedStepsInput` handler
assigns the entered value with no clamping: entering `50` while
`totalSteps = 10` leaves `completedSteps = 50`, outside `[0, totalSteps]`. -/
theorem completedStepsInput_breaks_invariant :
    (completedStepsInputHandler
        { startDate := none, lastProgressUpdate := none,
          totalSteps := JsNum.num 10, completedSteps := JsNum.num 0,
          appState := APP_STATE_SETUP } (JsNum.num 50) 0).completedSteps
      = JsNum.num 50 ∧
    (completedStepsInputHandler
        { startDate := none, lastProgressUpdate := none,
          totalSteps := JsNum.num 10, completedSteps := JsNum.num 0,
          appState := APP_STATE_SETUP } (JsNum.num 50) 0).totalSteps
      = JsNum.num 10 ∧
    ¬ (50 : ℚ) ≤ 10 := by
  refine ⟨rfl, rfl, by norm_num⟩

/-- C3 (amended): the *button* mutators maintain the invariants —
`updateTotalSteps` leaves `totalSteps = max (prev + delta) 0 ≥ 0`, and
`updateCompletedSteps` (whenever `totalSteps` is non-negative) clamps
`completedSteps` into `[0, totalSteps]` — but the direct input handlers
assign the entered value without clamping, so input-driven updates do not
re-establish `completedSteps ≤ totalSteps`. -/
theorem button_mutators_keep_invariants
    (s : TaskState) (t c d now : ℚ) (vIn : JsNum)
    (ht : s.totalSteps = JsNum.num t) (hc : s.completedSteps = JsNum.num c)
    (htn : 0 ≤ t) :
    ((updateTotalSteps s (JsNum.num d)).totalSteps = JsNum.num (max (t + d) 0) ∧
      (0 : ℚ) ≤ max (t + d) 0) ∧
    ((updateCompletedSteps s (JsNum.num d) now).completedSteps
        = JsNum.num (min (max (c + d) 0) t) ∧
      (0 : ℚ) ≤ min (max (c + d) 0) t ∧ min (max (c + d) 0) t ≤ t) ∧
    (totalStepsInputHandler s vIn).totalSteps = vIn ∧
    (completedStepsInputHandler s vIn now).completedSteps = vIn := by
  refine ⟨⟨?_, le_max_right _ _⟩, ⟨?_, ?_, min_le_right _ _⟩, rfl, rfl⟩
  · simp [updateTotalSteps, ht, JsNum.add, JsNum.jsMax]
  · simp [updateCompletedSteps, hc, ht, JsNum.add, JsNum.jsMax, JsNum.jsMin]
  · exact le_min (le_max_right _ _) htn

/-- C3 witness: a concrete instance of the amended invariant theorem at
`totalSteps = 10`, `completedSteps = 4`, `delta = 9`. -/
theorem button_mutators_keep_invariants_witness :
    (updateCompletedSteps
        { startDate := none, lastProgressUpdate := none,
          totalSteps := JsNum.num 10, completedSteps := JsNum.num 4,
          appState := APP_STATE_RUNNING } (JsNum.num 9) 7).completedSteps
      = JsNum.num (min (max ((4 : ℚ) + 9) 0) 10) ∧
    (0 : ℚ) ≤ min (max ((4 : ℚ) + 9) 0) 10 ∧
    min (max ((4 : ℚ) + 9) 0) 10 ≤ 10 := by
  exact (button_mutators_keep_invariants
    { startDate := none, lastProgressUpdate := none,
      totalSteps := JsNum.num 10, completedSteps := JsNum.num 4,
      appState := APP_STATE_RUNNING }
    10 4 9 7 (JsNum.num 0) rfl rfl (by norm_num)).2.1

/-- C4: round-trip persistence — serialising a state (dates to ISO-8601
strings, counters and mode as-is) and loading it back under the same version
tag reproduces the state exactly.  The numeric-counter hypotheses restrict
to valid states (a `NaN` counter would not survive `JSON.stringify`, which
renders `NaN` as `null`). -/
theorem load_save_roundTrip (s : TaskState) (t c : ℚ)
    (ht : s.totalSteps = JsNum.num t) (hc : s.completedSteps = JsNum.num c) :
    loadOrInitState (Slot.payload (saveState s)) = s := by
  obtain ⟨sd, lpu, tot, comp, app⟩ := s
  simp [loadOrInitState, loadOrInitStateV, saveState, saveStateV]
  cases sd <;> cases lpu <;>
    simp [toISOString, parseISODate]

/-- C4 witness: round trip at a concrete mid-tracking state. -/
theorem load_save_roundTrip_witness :
    loadOrInitState (Slot.payload (saveState
      { startDate := some 100, lastProgressUpdate := some 4000,
        totalSteps := JsNum.num 12, completedSteps := JsNum.num 5,
        appState := APP_STATE_RUNNING })) =
    { startDate := some 100, lastProgressUpdate := some 4000,
      totalSteps := JsNum.num 12, completedSteps := JsNum.num 5,
      appState := APP_STATE_RUNNING } :=
  load_save_roundTrip _ 12 5 rfl rfl

/-- C5: loading is fail-safe — an absent slot, an unparseable slot, any
payload whose version tag differs from the expected one, and in particular a
payload saved under version `v` and loaded under a different version `v'`,
all yield the freshly defaulted state (mode `setup`, zeroed counters, null
dates), and no case raises an error. -/
theorem load_failSafe_default (v vExp : ℚ) (p : Payload) (s : TaskState)
    (hp : p.version ≠ vExp) (hv : v ≠ vExp) :
    loadOrInitStateV vExp Slot.absent = createDefaultState ∧
    loadOrInitStateV vExp Slot.garbage = createDefaultState ∧
    loadOrInitStateV vExp (Slot.payload p) = createDefaultState ∧
    loadOrInitStateV vExp (Slot.payload (saveStateV v s)) = createDefaultState ∧
    createDefaultState =
      { startDate := none, lastProgressUpdate := none,
        totalSteps := JsNum.num 0, completedSteps := JsNum.num 0,
        appState := APP_STATE_SETUP } := by
  refine ⟨rfl, rfl, ?_, ?_, rfl⟩
  · simp [loadOrInitStateV, hp]
  · simp [loadOrInitStateV, saveStateV, hv]

/-- C5 witness: a payload saved under version `1` (the source's
`STATE_VERSION`) and loaded under a simulated version `2`, a mismatched
payload, an absent slot and a garbage slot all load as the default state. -/
theorem load_failSafe_default_witness :
    loadOrInitStateV 2 Slot.absent = createDefaultState ∧
    loadOrInitStateV 2 Slot.garbage = createDefaultState ∧
    loadOrInitStateV 2 (Slot.payload
      { version := 3,
        state := { startDate := none, lastProgressUpdate := none,
                   totalSteps := JsNum.num 7, completedSteps := JsNum.num 7,
                   appState := APP_STATE_RUNNING } }) = createDefaultState ∧
    loadOrInitStateV 2 (Slot.payload (saveStateV 1
      { startDate := some 100, lastProgressUpdate := some 4000,
        totalSteps := JsNum.num 12, completedSteps := JsNum.num 5,
        appState := APP_STATE_RUNNING })) = createDefaultState ∧
    createDefaultState =
      { startDate := none, lastProgressUpdate := none,
        totalSteps := JsNum.num 0, completedSteps := JsNum.num 0,
        appState := APP_STATE_SETUP } :=
  load_failSafe_default 1 2 _ _ (by norm_num) (by norm_num)

/-- C6: `begin()` with a numeric `totalSteps` transitions to TRACKING only
when `totalSteps ≥ 1` and `startDate` is not in the future.  When
`totalSteps < 1`, or when `startDate` is set and strictly later than `now`,
the click is rejected and the state is returned entirely unchanged (the
mode stays as it was).  On success the handler sets `startDate = now` when
it was unset, switches the mode to RUNNING and stamps
`lastProgressUpdate = now`. -/
theorem startProcess_transition (s : TaskState) (t now : ℚ)
    (ht : s.totalSteps = JsNum.num t) :
    (t < 1 → startProcess s now = s) ∧
    (∀ d, 1 ≤ t → s.startDate = some d → now < d → startProcess s now = s) ∧
    (1 ≤ t → s.startDate = none →
      startProcess s now =
        { s with startDate := some now, appState := APP_STATE_RUNNING,
                 lastProgressUpdate := some now }) ∧
    (∀ d, 1 ≤ t → s.startDate = some d → d ≤ now →
      startProcess s now =
        { s with appState := APP_STATE_RUNNING, lastProgressUpdate := some now }) := by
  refine ⟨?_, ?_, ?_, ?_⟩
  · intro hlt
    simp [startProcess, ht, JsNum.ltb, hlt]
  · intro d h1 hd hfut
    simp [startProcess, ht, JsNum.ltb, not_lt.mpr h1, hd, hfut]
  · intro h1 hd
    simp [startProcess, ht, JsNum.ltb, not_lt.mpr h1, hd]
  · intro d h1 hd hpast
    simp [startProcess, ht, JsNum.ltb, not_lt.mpr h1, hd, not_lt.mpr hpast]

/-- C6 witness: with `totalSteps = 3` and no `startDate`, a click at instant
`5` starts tracking, setting `startDate` and `lastProgressUpdate` to `5`;
and with `totalSteps = 0` the click is rejected with the state unchanged. -/
theorem startProcess_transition_witness :
    startProcess
      { startDate := none, lastProgressUpdate := none,
        totalSteps := JsNum.num 3, completedSteps := JsNum.num 0,
        appState := APP_STATE_SETUP } 5 =
      { startDate := some 5, lastProgressUpdate := some 5,
        totalSteps := JsNum.num 3, completedSteps := JsNum.num 0,
        appState := APP_STATE_RUNNING } ∧
    startProcess
      { startDate := none, lastProgressUpdate := none,
        totalSteps := JsNum.num 0, completedSteps := JsNum.num 0,
        appState := APP_STATE_SETUP } 5 =
      { startDate := none, lastProgressUpdate := none,
        totalSteps := JsNum.num 0, completedSteps := JsNum.num 0,
        appState := APP_STATE_SETUP } := by
  constructor
  · exact (startProcess_transition _ 3 5 rfl).2.2.1 (by norm_num) rfl
  · exact (startProcess_transition _ 0 5 rfl).1 (by norm_num)

/-- C7: `adjustCompletedSteps(delta)` (the `updateCompletedSteps` mutator)
adds the delta, clamps the result into `[0, totalSteps]`, and stamps
`lastProgressUpdate = now`; an overshoot lands exactly on `totalSteps` and
an undershoot exactly on `0`. -/
theorem updateCompletedSteps_clamp (s : TaskState) (c t d now : ℚ)
    (hc : s.completedSteps = JsNum.num c) (ht : s.totalSteps = JsNum.num t)
    (htn : 0 ≤ t) :
    updateCompletedSteps s (JsNum.num d) now =
      { s with completedSteps := JsNum.num (min (max (c + d) 0) t),
               lastProgressUpdate := some now } ∧
    (0 : ℚ) ≤ min (max (c + d) 0) t ∧
    min (max (c + d) 0) t ≤ t ∧
    (t < c + d → min (max (c + d) 0) t = t) ∧
    (c + d < 0 → min (max (c + d) 0) t = 0) := by
  refine ⟨?_, le_min (le_max_right _ _) htn, min_le_right _ _, ?_, ?_⟩
  · simp [updateCompletedSteps, hc, ht, JsNum.add, JsNum.jsMax, JsNum.jsMin]
  · intro hover
    rw [max_eq_left (le_of_lt (lt_of_le_of_lt htn hover))]
    exact min_eq_right (le_of_lt hover)
  · intro hunder
    rw [max_eq_right (le_of_lt hunder)]
    exact min_eq_left htn

/-- C7 witness — the spec's own scenario: `completedSteps = 8`,
`totalSteps = 10`, `delta = +5` overshoots, and the result is clamped to
exactly `totalSteps = 10`, with `lastProgressUpdate` stamped. -/
theorem updateCompletedSteps_clamp_witness :
    updateCompletedSteps
      { startDate := some 0, lastProgressUpdate := some 1,
        totalSteps := JsNum.num 10, completedSteps := JsNum.num 8,
        appState := APP_STATE_RUNNING } (JsNum.num 5) 9 =
      { startDate := some 0, lastProgressUpdate := some 9,
        totalSteps := JsNum.num 10, completedSteps := JsNum.num (min (max ((8 : ℚ) + 5) 0) 10),
        appState := APP_STATE_RUNNING } ∧
    ((10 : ℚ) < 8 + 5 → min (max ((8 : ℚ) + 5) 0) 10 = 10) := by
  have h := updateCompletedSteps_clamp
    { startDate := some 0, lastProgressUpdate := some 1,
      totalSteps := JsNum.num 10, completedSteps := JsNum.num 8,
      appState := APP_STATE_RUNNING } 8 10 5 9 rfl rfl (by norm_num)
  exact ⟨h.1, h.2.2.2.1⟩

/-- C8 counterexample: the claim says callers treat a negative remaining
duration as a valid, displayable overdue state.  The display formatter
instead maps every negative duration to the placeholder `"⏱ —"` — the same
text rendered when no estimate exists — while a positive duration renders
as a clock value. -/
theorem formatDuration_negative_placeholder :
    formatDuration (-60000) = "⏱ —" ∧ formatDuration 60000 = "⏱ 0:01:00" := by
  constructor
  · norm_num [formatDuration]
  · norm_num [formatDuration, pad2]
    rfl

/-- C8 (amended): for every state satisfying the validity precondition the
remaining duration `totalSteps * elapsed / completedSteps - elapsed` is
strictly positive — with `completedSteps < totalSteps` the pace can never
have exceeded the naive linear estimate — and the estimator returns it
unclamped; any negative duration reaching the display layer is rendered by
`formatDuration` as the placeholder `"⏱ —"`, not as an overdue duration. -/
theorem remainingDuration_positive_unclamped (s : TaskState) (sd l t c : ℚ)
    (hsd : s.startDate = some sd) (hl : s.lastProgressUpdate = some l)
    (ht : s.totalSteps = JsNum.num t) (hc : s.completedSteps = JsNum.num c)
    (h0 : 0 < c) (hct : c < t) (hsl : sd < l) :
    calculateEstimation s =
      some { elapsedDurationMs := l - sd
             totalDurationMs := JsNum.num (t * (l - sd) / c)
             remainingSteps := JsNum.num (t - c)
             remainingDurationMs := JsNum.num (t * (l - sd) / c - (l - sd))
             estimatedEndDate := JsNum.num (l + (t * (l - sd) / c - (l - sd))) } ∧
    0 < t * (l - sd) / c - (l - sd) ∧
    (∀ ms : ℚ, ms < 0 → formatDuration ms = "⏱ —") := by
  refine ⟨calculateEstimation_valid_eq s sd l t c hsd hl ht hc h0 hct hsl, ?_, ?_⟩
  · have hrw : t * (l - sd) / c - (l - sd) = (l - sd) * (t - c) / c := by
      field_simp
      ring
    rw [hrw]
    exact div_pos (mul_pos (by linarith) (by linarith)) h0
  · intro ms hms
    simp [formatDuration, hms]

/-- C8 witness: the amended statement at the spec scenario state, plus its
display consequence at the concrete negative duration `-1`. -/
theorem remainingDuration_positive_unclamped_witness :
    (0 : ℚ) < 100 * (600000 - 0) / 25 - (600000 - 0) ∧
    formatDuration (-1) = "⏱ —" := by
  have h := remainingDuration_positive_unclamped
    { startDate := some 0, lastProgressUpdate := some 600000,
      totalSteps := JsNum.num 100, completedSteps := JsNum.num 25,
      appState := APP_STATE_RUNNING }
    0 600000 100 25 rfl rfl rfl rfl (by norm_num) (by norm_num) (by norm_num)
  exact ⟨h.2.1, h.2.2 (-1) (by norm_num)⟩

/-- C9: `reset()` returns to the SETUP mode, zeroes both step counters and
clears `startDate`, while leaving every other field — in particular
`lastProgressUpdate` — exactly as it was. -/
theorem resetProcess_frame (s : TaskState) :
    resetProcess s =
      { startDate := none, lastProgressUpdate := s.lastProgressUpdate,
        totalSteps := JsNum.num 0, completedSteps := JsNum.num 0,
        appState := APP_STATE_SETUP } :=
  rfl
